import Mathlib

/-!
Verification development for the ai-content-consultant repository.

Shallow embedding of the two core subsystems:
* the conversation state machine of
  `backend/service/api-service/conversation_graph.py`, and
* the retrieval/rerank pipeline of
  `backend/service/api-service/retriever.py`.

External collaborators (the generative-language gateway, the JSON parser of
the standard library, the Qdrant client and the Cohere reranker) are modelled
by their outcomes, passed in as explicit parameters, exactly as the spec
treats them (opaque services).  All repository-side control flow, state
threading and string processing is translated directly from the source.
-/

/-! ## Python-style string helpers -/

/-- Lowercasing a string character by character (Python `str.lower()` on the
ASCII inputs the keyword tables use). -/
def lowerStr (s : String) : String :=
  String.mk (s.data.map Char.toLower)

/-- Does the character list `hay` start with the character list `needle`? -/
def charsStartWith : List Char → List Char → Bool
  | [], _ => true
  | _ :: _, [] => false
  | n :: ns, h :: hs => n = h && charsStartWith ns hs

/-- Does the character list contain `needle` as a contiguous run? -/
def charsContain (needle : List Char) : List Char → Bool
  | [] => needle.isEmpty
  | h :: hs => charsStartWith needle (h :: hs) || charsContain needle hs

/-- Python's `needle in haystack` substring test. -/
def strContains (haystack needle : String) : Bool :=
  charsContain needle.data haystack.data

/-- Python's `any(keyword in text for keyword in kws)` pattern, used throughout
`conversation_graph.py` for keyword matching. -/
def hasAnyKw (kws : List String) (text : String) : Bool :=
  kws.any (fun k => strContains text k)

/-- Accumulating worker for whitespace splitting. -/
def splitWsAux : List Char → List Char → List String
  | [], acc => if acc.isEmpty then [] else [String.mk acc.reverse]
  | c :: cs, acc =>
    if c.isWhitespace then
      if acc.isEmpty then splitWsAux cs []
      else String.mk acc.reverse :: splitWsAux cs []
    else splitWsAux cs (c :: acc)

/-- Python's `str.split()` with no arguments: split on whitespace runs,
dropping empty pieces. -/
def pySplitWs (s : String) : List String :=
  splitWsAux s.data []

/-- Python's `l[-n:]` slice: the last `n` elements (all of them when the list
is shorter). -/
def pyLastN (n : Nat) (l : List α) : List α :=
  l.drop (l.length - n)

/-- Python's `str.isalpha()`: nonempty and wholly alphabetic. -/
def isAlphaStr (s : String) : Bool :=
  s ≠ "" && s.data.all Char.isAlpha

/-- The part of a character list after the first `':'` (Python
`line.split(":", 1)[1]`; the callers only use it when `":" in line`). -/
def afterFirstColon : List Char → List Char
  | [] => []
  | c :: cs => if c = ':' then cs else afterFirstColon cs

/-- Python's `str.strip()`: drop leading and trailing whitespace. -/
def pyStrip (s : String) : String :=
  String.mk (((s.data.dropWhile Char.isWhitespace).reverse.dropWhile Char.isWhitespace).reverse)

/-- Accumulating worker for splitting on one separator character, keeping
empty pieces (Python `str.split(sep)`). -/
def splitOnCharAux (sep : Char) : List Char → List Char → List String
  | [], acc => [String.mk acc.reverse]
  | c :: cs, acc =>
    if c = sep then String.mk acc.reverse :: splitOnCharAux sep cs []
    else splitOnCharAux sep cs (c :: acc)

/-- Python's `text.split('\n')`. -/
def splitLines (s : String) : List String :=
  splitOnCharAux '\n' s.data []

/-- Python's `word.strip('#')`: drop leading and trailing `#` characters. -/
def stripHashes (s : String) : String :=
  String.mk (((s.data.dropWhile (fun c => c = '#')).reverse.dropWhile (fun c => c = '#')).reverse)

/-! ## Data model (`ConversationState` and friends) -/

/-- Message roles (`HumanMessage` / `AIMessage` in the source). -/
inductive Role where
  | user
  | assistant
deriving DecidableEq

/-- The structured content payload (`idea` / `videoStructure` / `caption` /
`hashtags` JSON shape of §4.3). -/
structure ContentData where
  idea : String
  videoStructure : String
  caption : String
  hashtags : List String
deriving DecidableEq

/-- One entry of the content history, as built by `content_generator`. -/
structure ContentItem where
  id : String
  timestamp : String
  data : ContentData
  prompt : String
  conversation_topic : String
  is_continuation : Bool
  referenced_content : Option String
deriving DecidableEq

/-- Values stored in the untyped `user_context` dictionary.  The Python code
stores strings, booleans, counters, content items (and `None`), lists of
content items and lists of strings under its keys. -/
inductive CtxVal where
  | str : String → CtxVal
  | bool : Bool → CtxVal
  | nat : Nat → CtxVal
  | contentItem : ContentItem → CtxVal
  | contentList : List ContentItem → CtxVal
  | strList : List String → CtxVal
  | contentData : ContentData → CtxVal
  | none : CtxVal
deriving DecidableEq

/-- The `user_context` dictionary: string-keyed, insertion ordered, keys
unique — modelled as an association list with Python `dict` update
semantics. -/
abbrev Ctx := List (String × CtxVal)

/-- Dictionary lookup (`d.get(k)`): value at the first matching key. -/
def ctxGet : Ctx → String → Option CtxVal
  | [], _ => Option.none
  | (k', v') :: rest, k => if k' = k then Option.some v' else ctxGet rest k

/-- Dictionary update (`{**d, k: v}` / `d[k] = v`): overwrite in place when the
key exists, append otherwise. -/
def ctxSet : Ctx → String → CtxVal → Ctx
  | [], k, v => [(k, v)]
  | (k', v') :: rest, k, v =>
    if k' = k then (k, v) :: rest else (k', v') :: ctxSet rest k v

/-- Python truthiness of a stored value. -/
def pyTruthyVal : CtxVal → Bool
  | CtxVal.str s => s ≠ ""
  | CtxVal.bool b => b
  | CtxVal.nat n => n ≠ 0
  | CtxVal.contentItem _ => true
  | CtxVal.contentList l => !l.isEmpty
  | CtxVal.strList l => !l.isEmpty
  | CtxVal.contentData _ => true
  | CtxVal.none => false

/-- Python truthiness of `d.get(k)` (missing key → `None` → falsy). -/
def pyTruthyOpt : Option CtxVal → Bool
  | Option.none => false
  | Option.some v => pyTruthyVal v

/-- `d.get(k, default)` where the caller expects a string. -/
def ctxGetStr (c : Ctx) (k : String) (d : String) : String :=
  match ctxGet c k with
  | Option.some (CtxVal.str s) => s
  | _ => d

/-- `d.get(k, default)` where the caller expects a boolean. -/
def ctxGetBool (c : Ctx) (k : String) (d : Bool) : Bool :=
  match ctxGet c k with
  | Option.some (CtxVal.bool b) => b
  | _ => d

/-- `d.get(k, default)` where the caller expects a counter. -/
def ctxGetNat (c : Ctx) (k : String) (d : Nat) : Nat :=
  match ctxGet c k with
  | Option.some (CtxVal.nat n) => n
  | _ => d

/-- `user_context.get("content_history", [])`. -/
def ctxGetContentHistory (c : Ctx) : List ContentItem :=
  match ctxGet c "content_history" with
  | Option.some (CtxVal.contentList l) => l
  | _ => []

/-- `user_context.get(k)` where the caller expects an optional string. -/
def ctxGetOptStr (c : Ctx) (k : String) : Option String :=
  match ctxGet c k with
  | Option.some (CtxVal.str s) => Option.some s
  | _ => Option.none

/-- A chat message.  `structured` models `additional_kwargs["structured_content"]`
on `AIMessage`s produced by `content_generator`. -/
structure Message where
  role : Role
  content : String
  structured : Option ContentData := Option.none
deriving DecidableEq

/-- Helper for plain assistant messages (`AIMessage(content=...)`). -/
def mkAssistant (s : String) : Message :=
  { role := Role.assistant, content := s, structured := Option.none }

/-- The `ConversationState` TypedDict threaded through the graph. -/
structure ConvState where
  messages : List Message
  user_context : Ctx
  content_history : List ContentItem
  conversation_summary : Option String
deriving DecidableEq

/-- One entry of the caller-supplied flat conversation history
(`{type, content}` dictionaries). -/
structure HistMsg where
  type : String
  content : String
deriving DecidableEq

/-- Outcome of one call to the text-generation gateway
(`client.models.generate_content`): it raises, or returns a response whose
`.text` is `None` or a string. -/
inductive GatewayOutcome where
  | raise
  | text : Option String → GatewayOutcome
deriving DecidableEq

/-! ## Keyword tables (verbatim from `conversation_graph.py`) -/

/-- `continuation_keywords` of `analyze_conversation_continuity`. -/
def continuation_keywords : List String :=
  ["more", "another", "different", "similar", "like that", "chaotic", "funnier",
   "better", "worse", "change", "modify", "update", "improve", "variation",
   "make it", "but", "instead", "also", "what about", "how about"]

/-- `modification_keywords` of `analyze_user_intent`. -/
def modification_keywords : List String :=
  ["make it", "more", "less", "different", "change", "modify", "update",
   "chaotic", "funnier", "better", "worse", "wilder", "crazier", "dramatic",
   "instead", "but", "however", "actually", "rather"]

/-- `content_keywords` of `analyze_user_intent`. -/
def content_keywords : List String :=
  ["create", "generate", "make", "produce", "develop", "come up with",
   "idea", "content", "video", "post", "caption", "hashtag", "trending"]

/-- `question_keywords` of `analyze_user_intent`. -/
def question_keywords : List String :=
  ["what", "how", "why", "when", "where", "which", "who",
   "explain", "tell me", "help", "advice", "suggest"]

/-- `search_keywords` of `analyze_user_intent`. -/
def search_keywords : List String :=
  ["find", "search", "look for", "trending", "popular", "viral"]

/-- The topic table of `extract_conversation_topic`, in insertion order. -/
def topicsTable : List (String × List String) :=
  [("coffee", ["coffee", "morning", "caffeine", "brew"]),
   ("workout", ["workout", "fitness", "exercise", "gym"]),
   ("cooking", ["cooking", "recipe", "food", "kitchen"]),
   ("dance", ["dance", "dancing", "choreography", "music"]),
   ("transformation", ["before", "after", "transformation", "change"]),
   ("morning routine", ["morning", "routine", "wake up", "start day"]),
   ("chaos", ["chaotic", "crazy", "wild", "messy", "dramatic"])]

/-- `content_request_keywords` of `should_generate_content_check`. -/
def content_request_keywords : List String :=
  ["create content", "generate content", "make content", "content idea",
   "video idea", "post idea", "create a video", "make a video",
   "content strategy", "viral idea", "trending content", "morning coffee",
   "coffee", "workout", "cooking", "dance", "transformation", "routine"]

/-- The local `modification_keywords` list of `should_generate_content_check`. -/
def should_generate_modification_keywords : List String :=
  ["more", "different", "another", "chaotic", "funnier", "better"]

/-! ## Context Extractor -/

/-- `analyze_user_intent` (conversation_graph.py lines 465-512). -/
def analyze_user_intent (user_input : String) : String :=
  let user_input_lower := lowerStr user_input
  if hasAnyKw modification_keywords user_input_lower then "content_modification"
  else if hasAnyKw content_keywords user_input_lower then "content_generation"
  else if hasAnyKw question_keywords user_input_lower then "question"
  else if hasAnyKw search_keywords user_input_lower then "search"
  else "general_conversation"

/-- `extract_recent_topics` (lines 146-157): words of length > 4, wholly
alphabetic, from the lowered message contents; `list(set(...))` dedupes with
unspecified order, and the single caller only tests membership. -/
def extract_recent_topics (messages : List Message) : List String :=
  ((messages.map (fun m =>
      (pySplitWs (lowerStr m.content)).filter
        (fun w => decide (w.length > 4) && isAlphaStr w))).flatten).dedup

/-- `analyze_conversation_continuity` (lines 94-116).  The `user_context`
parameter is unused by the source as well. -/
def analyze_conversation_continuity (user_input : String) (messages : List Message)
    (user_context : Ctx) : Bool :=
  let user_input_lower := lowerStr user_input
  if hasAnyKw continuation_keywords user_input_lower then true
  else if messages.length > 2 then
    (extract_recent_topics (pyLastN 6 messages)).any
      (fun topic => strContains user_input_lower (lowerStr topic))
  else false

/-- First topic of the table one of whose keywords occurs in the recent
content (the `for topic, keywords in topics.items()` loop). -/
def firstTopic : List (String × List String) → String → String
  | [], _ => "general"
  | (t, kws) :: rest, recent_content =>
    if kws.any (fun k => strContains recent_content k) then t
    else firstTopic rest recent_content

/-- `extract_conversation_topic` (lines 118-144). -/
def extract_conversation_topic (messages : List Message) : String :=
  if messages.length < 2 then "general"
  else
    let recent_content :=
      String.join ((pyLastN 6 messages).map (fun m => lowerStr m.content ++ " "))
    firstTopic topicsTable recent_content

/-- `find_last_content_reference` (lines 159-179): last 3 history items in
reverse order; an item matches when its idea shares at least 2 distinct
whitespace tokens with the lowered input. -/
def find_last_content_reference (user_input : String)
    (content_history : List ContentItem) : Option ContentItem :=
  if content_history.isEmpty then Option.none
  else
    let user_input_lower := lowerStr user_input
    let input_words := pySplitWs user_input_lower
    ((pyLastN 3 content_history).reverse).find? (fun content_item =>
      let idea := lowerStr content_item.data.idea
      let idea_words := (pySplitWs idea).dedup
      decide ((idea_words.filter (fun w => input_words.contains w)).length ≥ 2))

/-- The `last_content_reference` context value (`None` when no match). -/
def optItemToVal : Option ContentItem → CtxVal
  | Option.some it => CtxVal.contentItem it
  | Option.none => CtxVal.none

/-- `context_analyzer` (lines 56-92).  The source guards `if not messages`
and then takes `messages[-1]`; both are expressed through `getLast?`. -/
def context_analyzer (state : ConvState) : ConvState :=
  match state.messages.getLast? with
  | Option.none => state
  | Option.some latest_message =>
    if latest_message.role = Role.user then
      let user_input := latest_message.content
      let intent := analyze_user_intent user_input
      let is_continuation :=
        analyze_conversation_continuity user_input state.messages state.user_context
      let updated := ctxSet state.user_context "current_intent" (CtxVal.str intent)
      let updated := ctxSet updated "message_count" (CtxVal.nat state.messages.length)
      let updated := ctxSet updated "last_user_input" (CtxVal.str user_input)
      let updated := ctxSet updated "is_continuation" (CtxVal.bool is_continuation)
      let updated := ctxSet updated "conversation_topic"
        (CtxVal.str (extract_conversation_topic state.messages))
      let updated := ctxSet updated "last_content_reference"
        (optItemToVal (find_last_content_reference user_input
          (ctxGetContentHistory state.user_context)))
      { state with user_context := updated }
    else state

/-! ## Dialogue Agent -/

/-- `should_generate_content_check` (lines 571-611).  Note that the
`response_content` argument is never read: the decision depends on the
context alone. -/
def should_generate_content_check (response_content : String) (user_context : Ctx) : Bool :=
  let user_input := lowerStr (ctxGetStr user_context "last_user_input" "")
  let current_intent := ctxGetStr user_context "current_intent" ""
  if current_intent = "content_modification" then true
  else if current_intent = "content_generation" then true
  else if hasAnyKw content_request_keywords user_input then true
  else if pyTruthyOpt (ctxGet user_context "is_continuation") &&
      (match ctxGet user_context "conversation_topic" with
       | Option.some (CtxVal.str s) => decide (s ≠ "general")
       | _ => true) then true
  else if (match ctxGet user_context "content_history" with
           | Option.some (CtxVal.contentList l) => !l.isEmpty
           | _ => false) &&
      hasAnyKw should_generate_modification_keywords user_input then true
  else false

/-- `extract_content_prompt` (lines 613-636). -/
def extract_content_prompt (response_content : String) (user_context : Ctx) : String :=
  let user_input := ctxGetStr user_context "last_user_input" ""
  let enhanced_prompt :=
    "Create viral social media content based on this request: " ++ user_input
  let enhanced_prompt :=
    if pyTruthyOpt (ctxGet user_context "is_continuation") then
      let p := enhanced_prompt ++
        "\n\nIMPORTANT: This is a modification of previous content about " ++
        ctxGetStr user_context "conversation_topic" "the previous topic"
      match ctxGet user_context "last_content_reference" with
      | Option.some (CtxVal.contentItem it) =>
        p ++ "\n\nPREVIOUS CONTENT TO MODIFY:\nIdea: " ++ it.data.idea ++
          "\nStructure: " ++ it.data.videoStructure ++
          "\n\nUser wants to modify this content. Apply their specific requested changes while maintaining the core concept."
      | _ => p
    else enhanced_prompt
  match ctxGet user_context "selected_platforms" with
  | Option.some (CtxVal.strList platforms) =>
    if !platforms.isEmpty then
      enhanced_prompt ++ "\n\nOptimize for: " ++ String.intercalate ", " platforms
    else enhanced_prompt
  | _ => enhanced_prompt

/-- `conversation_agent` (lines 181-247).  The gateway call is modelled by
its outcome `go`; the system-instruction strings it would receive do not
influence any state the function returns.  On an exception only the fixed
fallback message is appended; an empty/`None` `.text` is substituted with the
fallback reply on the success path. -/
def conversation_agent (state : ConvState) (go : GatewayOutcome) : ConvState :=
  match state.messages.getLast? with
  | Option.none => state
  | Option.some latest_message =>
    if latest_message.role = Role.user then
      match go with
      | GatewayOutcome.raise =>
        { state with messages := state.messages ++
            [mkAssistant "I\x27m having trouble processing your request. Please try again."] }
      | GatewayOutcome.text t =>
        let response_content :=
          match t with
          | Option.some s =>
            if s = "" then "I\x27m having trouble processing your request." else s
          | Option.none => "I\x27m having trouble processing your request."
        let should_generate_content :=
          should_generate_content_check response_content state.user_context
        let preserved_context :=
          ctxSet (ctxSet state.user_context
              "needs_content_generation" (CtxVal.bool should_generate_content))
            "last_response" (CtxVal.str response_content)
        let preserved_context :=
          if should_generate_content then
            ctxSet preserved_context "content_prompt"
              (CtxVal.str (extract_content_prompt response_content state.user_context))
          else preserved_context
        { state with
            messages := state.messages ++ [mkAssistant response_content],
            user_context := preserved_context }
    else state

/-! ## Content Synthesizer -/

/-- The sections recognised by `extract_content_from_text`. -/
inductive CSection where
  | idea
  | videoStructure
  | caption
  | hashtags
deriving DecidableEq

/-- Default content of `extract_content_from_text` before any line is read. -/
def defaultExtracted : ContentData :=
  { idea := "Content idea extracted from conversation",
    videoStructure := "Video structure based on the discussion",
    caption := "Engaging caption for the content",
    hashtags := ["viral", "trending", "content"] }

/-- The `content[current_section] += " " + line` continuation step.  For the
`hashtags` section Python's list `+=` extends the list with the characters of
the string, which is reproduced verbatim. -/
def sectionAppend (d : ContentData) (sec : CSection) (line : String) : ContentData :=
  match sec with
  | CSection.idea => { d with idea := d.idea ++ " " ++ line }
  | CSection.videoStructure => { d with videoStructure := d.videoStructure ++ " " ++ line }
  | CSection.caption => { d with caption := d.caption ++ " " ++ line }
  | CSection.hashtags =>
    { d with hashtags := d.hashtags ++ (" " ++ line).data.map (fun c => String.mk [c]) }

/-- The line loop of `extract_content_from_text` (lines 647-673). -/
def extractLoop : List String → ContentData → Option CSection → ContentData
  | [], content, _ => content
  | rawLine :: rest, content, current_section =>
    let line := pyStrip rawLine
    if line = "" then extractLoop rest content current_section
    else
      let lower := lowerStr line
      if strContains lower "idea" && strContains line ":" then
        extractLoop rest
          { content with idea := pyStrip (String.mk (afterFirstColon line.data)) }
          (Option.some CSection.idea)
      else if strContains lower "structure" && strContains line ":" then
        extractLoop rest
          { content with videoStructure := pyStrip (String.mk (afterFirstColon line.data)) }
          (Option.some CSection.videoStructure)
      else if strContains lower "caption" && strContains line ":" then
        extractLoop rest
          { content with caption := pyStrip (String.mk (afterFirstColon line.data)) }
          (Option.some CSection.caption)
      else if strContains lower "hashtag" && strContains line ":" then
        let hashtags := (pySplitWs line).filterMap (fun word =>
          if word.data.head? = Option.some '#' then Option.some (stripHashes word)
          else Option.none)
        let content := if !hashtags.isEmpty then { content with hashtags := hashtags } else content
        extractLoop rest content (Option.some CSection.hashtags)
      else
        match current_section with
        | Option.some sec =>
          if !(["idea", "structure", "caption", "hashtag"].any (fun k => strContains lower k)) then
            extractLoop rest (sectionAppend content sec line) current_section
          else extractLoop rest content current_section
        | Option.none => extractLoop rest content current_section

/-- `extract_content_from_text` (lines 638-675): the heuristic fallback parser
used when strict JSON parsing fails. -/
def extract_content_from_text (text : String) : ContentData :=
  extractLoop (splitLines text) defaultExtracted Option.none

/-- `format_content_response` (lines 453-463). -/
def format_content_response (content_data : ContentData) (user_context : Ctx) : String :=
  let base_response :=
    "Here\x27s a viral content idea for you:\n\n**Idea:** " ++ content_data.idea ++
    "\n\n**Video Structure:** " ++ content_data.videoStructure ++
    "\n\n**Caption:** " ++ content_data.caption ++
    "\n\n**Hashtags:** " ++
    String.intercalate ", " (content_data.hashtags.map (fun tag => "#" ++ tag))
  if pyTruthyOpt (ctxGet user_context "is_continuation") then
    if ctxGetNat user_context "content_generation_count" 0 > 0 then
      "Building on our previous idea with your requested changes:\n\n" ++ base_response
    else base_response
  else base_response

/-- `content_generator` (lines 293-379).  `go` is the gateway outcome and
`jsonParse` models `json.loads` restricted to the expected shape (`none`
models `JSONDecodeError`, handing over to the heuristic extractor).  On a
gateway exception only the fixed fallback message is appended. -/
def content_generator (state : ConvState) (go : GatewayOutcome)
    (jsonParse : String → Option ContentData) (now : String) : ConvState :=
  let user_context := state.user_context
  let content_history := state.content_history
  if !(pyTruthyOpt (ctxGet user_context "needs_content_generation")) then state
  else
    let content_prompt := ctxGetStr user_context "content_prompt" ""
    if content_prompt = "" then state
    else
      match go with
      | GatewayOutcome.raise =>
        { state with messages := state.messages ++
            [mkAssistant "I\x27m having trouble generating content. Please try again."] }
      | GatewayOutcome.text t =>
        let content_text :=
          match t with
          | Option.some s => if s = "" then "" else s
          | Option.none => ""
        let content_data :=
          match jsonParse content_text with
          | Option.some d => d
          | Option.none => extract_content_from_text content_text
        let new_content : ContentItem :=
          { id := "content_" ++ toString (content_history.length + 1),
            timestamp := now,
            data := content_data,
            prompt := content_prompt,
            conversation_topic := ctxGetStr user_context "conversation_topic" "general",
            is_continuation := ctxGetBool user_context "is_continuation" false,
            referenced_content :=
              match ctxGet user_context "last_content_reference" with
              | Option.some (CtxVal.contentItem it) => Option.some it.id
              | _ => Option.none }
        let updated_content_history := content_history ++ [new_content]
        let response_content := format_content_response content_data user_context
        let response_message : Message :=
          { role := Role.assistant, content := response_content,
            structured := Option.some content_data }
        let updated_context :=
          ctxSet (ctxSet (ctxSet user_context
              "needs_content_generation" (CtxVal.bool false))
            "last_generated_content" (CtxVal.contentData content_data))
            "content_generation_count"
            (CtxVal.nat (ctxGetNat user_context "content_generation_count" 0 + 1))
        { state with
            messages := state.messages ++ [response_message],
            content_history := updated_content_history,
            user_context := updated_context }

/-! ## Conversation Orchestrator -/

/-- Python truthiness of the optional caller-supplied context dictionary. -/
def pyTruthyOptCtx : Option Ctx → Bool
  | Option.none => false
  | Option.some c => !c.isEmpty

/-- The initial `ConversationState` seeded by `process_conversation`
(lines 680-697): caller history converted to messages, the new user message
appended, context and content history taken from the caller. -/
def initial_turn_state (user_input : String) (conversation_history : List HistMsg)
    (user_context : Option Ctx) : ConvState :=
  let langchain_messages := conversation_history.filterMap (fun msg =>
    if msg.type = "user" then
      Option.some { role := Role.user, content := msg.content, structured := Option.none }
    else if msg.type = "assistant" then
      Option.some { role := Role.assistant, content := msg.content, structured := Option.none }
    else Option.none)
  { messages := langchain_messages ++
      [{ role := Role.user, content := user_input, structured := Option.none }],
    user_context := user_context.getD [],
    content_history :=
      if pyTruthyOptCtx user_context then ctxGetContentHistory (user_context.getD [])
      else [],
    conversation_summary :=
      if pyTruthyOptCtx user_context then ctxGetOptStr (user_context.getD []) "conversation_summary"
      else Option.none }

/-- The `{success, response, structured_content, conversation_context,
content_history}` response shape of `process_conversation`. -/
structure ProcResult where
  success : Bool
  error : Option String
  response : String
  structured_content : Option ContentData
  conversation_context : Ctx
  content_history : List ContentItem
deriving DecidableEq

/-- `process_conversation` (lines 677-732).  The compiled graph is the linear
pipeline `context_analyzer → conversation_agent → content_generator` (§4.4);
`agent_go`/`synth_go` are the outcomes of the two gateway calls, and `exn`
models an unexpected exception raised anywhere inside the `try` body (e.g. by
the graph machinery), which the orchestrator boundary converts into the fixed
failure shape computed from the caller-supplied context alone. -/
def process_conversation (user_input : String) (conversation_history : List HistMsg)
    (user_context : Option Ctx) (agent_go synth_go : GatewayOutcome)
    (jsonParse : String → Option ContentData) (now : String)
    (exn : Option String) : ProcResult :=
  match exn with
  | Option.some e =>
    { success := false,
      error := Option.some e,
      response := "I\x27m having trouble processing your request. Please try again.",
      structured_content := Option.none,
      conversation_context :=
        if pyTruthyOptCtx user_context then user_context.getD [] else [],
      content_history :=
        if pyTruthyOptCtx user_context then ctxGetContentHistory (user_context.getD [])
        else [] }
  | Option.none =>
    let initial_state := initial_turn_state user_input conversation_history user_context
    let result :=
      content_generator
        (conversation_agent (context_analyzer initial_state) agent_go)
        synth_go jsonParse now
    let final_response : Message :=
      match result.messages.getLast? with
      | Option.some m => m
      | Option.none => mkAssistant "I\x27m having trouble processing your request."
    { success := true,
      error := Option.none,
      response := final_response.content,
      structured_content := final_response.structured,
      conversation_context := result.user_context,
      content_history := result.content_history }

/-! ## Retrieval Orchestrator (`retriever.py`) -/

/-- Embedding vectors.  `search` never inspects individual components (it only
tests `None`/emptiness and forwards the vector), so the scalar type is
immaterial; `Int` keeps everything decidable. -/
abbrev Vec := List Int

/-- A Qdrant payload: a string-keyed mapping; `search` only reads its
`"text"` field and otherwise passes it through. -/
abbrev Payload := List (String × String)

/-- Python's `payload.get(k, default)` for payload mappings. -/
def payloadGet (p : Payload) (k : String) (d : String) : String :=
  match p.find? (fun kv => kv.1 = k) with
  | Option.some kv => kv.2
  | Option.none => d

/-- One similarity-search candidate (`ScoredPoint`): payload plus score. -/
structure Hit where
  payload : Payload
  score : Int
deriving DecidableEq

/-- A default hit, standing for Python's (caught) `IndexError` path when a
rerank index were out of range — the model guards indices explicitly. -/
def defaultHit : Hit := { payload := [], score := 0 }

/-- Python truthiness of an optional string argument (`None` and `""` are
falsy). -/
def pyTruthyOptStr : Option String → Bool
  | Option.none => false
  | Option.some s => s ≠ ""

/-- Python's `query_text or ""`. -/
def optStrOr (o : Option String) (d : String) : String :=
  match o with
  | Option.some s => if s = "" then d else s
  | Option.none => d

/-- Errors `search` can raise: the `ValueError` for a missing query, and a
propagated vector-index failure (`UpstreamSearchFailure`, §7). -/
inductive SearchErr where
  | invalidQuery
  | upstream
deriving DecidableEq

/-- The embedding collaborator (`_HuggingFaceEmbedder`): both encoders return
`None` on failure, per the source's exception handlers. -/
structure EmbedderM where
  encode_text : String → Option Vec
  encode_video_frame : String → Option Vec

/-- The Qdrant client collaborator: similarity search over a named vector
space (which may raise), and the scroll fallback (which may raise). -/
structure QdrantClientM where
  vsearch : String → Vec → Nat → Except Unit (List Hit)
  scroll : Nat → Except Unit (List Hit)

/-- The retriever with its injected collaborators (`MultimodalRetriever.__init__`):
`cohere_client` is the optional rerank function
`rerank(query, documents, top_n) -> indices | failure`. -/
structure MultimodalRetriever where
  embedder : EmbedderM
  client : QdrantClientM
  cohere_client : Option (String → List String → Nat → Except Unit (List Nat))
  n_candidates : Nat

/-- The `if not vector or len(vector) == 0` scroll fallback of `search`
(lines 167-179): scroll `top_k` items, return their payloads; a scroll
failure degrades to the empty result. -/
def scrollFb (m : MultimodalRetriever) (top_k : Nat) : Except SearchErr (List Payload) :=
  match m.client.scroll top_k with
  | Except.ok hits => Except.ok (hits.map Hit.payload)
  | Except.error _ => Except.ok []

/-- The vector-building step of `search` (lines 155-165): media embedding with
text fallback when a video is given (only a `None` result triggers the
fallback), plain text embedding otherwise. -/
def buildQueryVector (m : MultimodalRetriever) (query_text query_video : Option String) :
    Option Vec × String :=
  if pyTruthyOptStr query_video then
    match m.embedder.encode_video_frame (query_video.getD "") with
    | Option.some vec => (Option.some vec, "visual")
    | Option.none => (m.embedder.encode_text (optStrOr query_text ""), "text")
  else (m.embedder.encode_text (query_text.getD ""), "text")

/-- `MultimodalRetriever.search` (lines 150-208).  A raise of the underlying
`client.search` propagates (`SearchErr.upstream`); the Cohere rerank call and
the subsequent indexing are inside one `try`, so a rerank failure or an
out-of-range index degrades to the first `top_k` raw hits. -/
def MultimodalRetriever.search (m : MultimodalRetriever)
    (query_text query_video : Option String) (top_k : Nat) :
    Except SearchErr (List Payload) :=
  if !(pyTruthyOptStr query_text) && !(pyTruthyOptStr query_video) then
    Except.error SearchErr.invalidQuery
  else
    match buildQueryVector m query_text query_video with
    | (Option.none, _) => scrollFb m top_k
    | (Option.some v, vector_name) =>
      if v.isEmpty then scrollFb m top_k
      else
        match m.client.vsearch vector_name v m.n_candidates with
        | Except.error _ => Except.error SearchErr.upstream
        | Except.ok results =>
          if results.isEmpty then Except.ok []
          else
            match m.cohere_client with
            | Option.some rerank =>
              if pyTruthyOptStr query_text then
                let docs := results.map (fun res => payloadGet res.payload "text" "")
                match rerank (query_text.getD "") docs top_k with
                | Except.ok idxs =>
                  if idxs.all (fun i => decide (i < results.length)) then
                    Except.ok ((idxs.map (fun i => results.getD i defaultHit)).map Hit.payload)
                  else Except.ok ((results.take top_k).map Hit.payload)
                | Except.error _ => Except.ok ((results.take top_k).map Hit.payload)
              else Except.ok ((results.take top_k).map Hit.payload)
            | Option.none => Except.ok ((results.take top_k).map Hit.payload)

/-! ## Spec-side comparison definitions

These definitions are written from the wording of the spec/claims (not from
the source), to be compared against the source-derived functions above. -/

/-- Modelled from the claim wording of C3: the content-generation decision as
a function of the extracted context fields — true if the intent is
modification or generation; else if the last user message contains a
content-request keyword; else if the turn is a continuation of a non-general
topic; else if content history is non-empty and the message contains a
modification keyword; else false. -/
def needs_generation_spec (current_intent last_user_message : String)
    (is_continuation : Bool) (conversation_topic : String)
    (history_nonempty : Bool) : Bool :=
  if current_intent = "content_modification" || current_intent = "content_generation" then true
  else if hasAnyKw content_request_keywords (lowerStr last_user_message) then true
  else if is_continuation && decide (conversation_topic ≠ "general") then true
  else if history_nonempty &&
      hasAnyKw should_generate_modification_keywords (lowerStr last_user_message) then true
  else false

/-- Modelled from the claim wording of C6: `is_continuation` is true iff the
message contains a continuation keyword, or the current message shares a
token of length > 4 (case-insensitively) with the content of one of the last
6 messages. -/
def is_continuation_claim (user_input : String) (messages : List Message) : Bool :=
  hasAnyKw continuation_keywords (lowerStr user_input) ||
  (pyLastN 6 messages).any (fun m =>
    (pySplitWs (lowerStr m.content)).any (fun w =>
      decide (w.length > 4) && (pySplitWs (lowerStr user_input)).contains w))

/-- The amended form of C6, matching the source: a continuation keyword, or —
only when the conversation holds more than 2 messages — some wholly
alphabetic token of length > 4 taken from the last 6 messages' content (the
current message included) occurring, lowercased, as a substring of the
lowercased current message. -/
def is_continuation_amended (user_input : String) (messages : List Message) : Bool :=
  hasAnyKw continuation_keywords (lowerStr user_input) ||
  (decide (messages.length > 2) &&
    (pyLastN 6 messages).any (fun m =>
      (pySplitWs (lowerStr m.content)).any (fun w =>
        decide (w.length > 4) && isAlphaStr w &&
          strContains (lowerStr user_input) (lowerStr w))))

/-! ## Iterated synthesis turns (for the append-only history property) -/

/-- The per-turn inputs of one Content Synthesizer invocation: the context and
messages the turn runs with, the gateway outcome, the JSON-parse collaborator
and the timestamp. -/
structure SynthTurn where
  ctx : Ctx
  msgs : List Message
  go : GatewayOutcome
  parse : String → Option ContentData
  now : String

/-- Run a sequence of Content Synthesizer turns, threading the content
history through (the caller round-trips the returned history into the next
turn, per §3 TurnState). -/
def runSynthTurns : List SynthTurn → List ContentItem → List ContentItem
  | [], hist => hist
  | t :: ts, hist =>
    runSynthTurns ts
      ((content_generator
          { messages := t.msgs, user_context := t.ctx,
            content_history := hist, conversation_summary := Option.none }
          t.go t.parse t.now).content_history)

/-- A synthesis turn that actually synthesises: the flag is set, the prompt is
non-empty, and the gateway call does not raise. -/
def SuccessfulSynth (t : SynthTurn) : Prop :=
  pyTruthyOpt (ctxGet t.ctx "needs_content_generation") = true ∧
  ctxGetStr t.ctx "content_prompt" "" ≠ "" ∧
  t.go ≠ GatewayOutcome.raise

/-- A default content item (only used as the `getD` fallback in statements
about list elements whose index is already known to be in range). -/
def defaultContentItem : ContentItem :=
  { id := "", timestamp := "", data := defaultExtracted, prompt := "",
    conversation_topic := "", is_continuation := false,
    referenced_content := Option.none }

/-! ## Witness fixtures (concrete collaborator instances) -/

/-- A concrete context in which the Content Synthesizer runs (flag set,
prompt non-empty). -/
def ctxSynthW : Ctx :=
  [("needs_content_generation", CtxVal.bool true), ("content_prompt", CtxVal.str "p")]

/-- A concrete successful synthesis turn. -/
def synthTurnW : SynthTurn :=
  { ctx := ctxSynthW, msgs := [], go := GatewayOutcome.text (Option.some "x"),
    parse := fun _ => Option.none, now := "2024-01-01" }

/-- Two concrete candidate hits for the retriever witnesses. -/
def hitA : Hit := { payload := [("text", "a"), ("id", "1")], score := 9 }

/-- Second concrete candidate hit. -/
def hitB : Hit := { payload := [("text", "b"), ("id", "2")], score := 5 }

/-- A retriever whose embedder always fails (empty vector) and whose scroll
serves a two-item collection. -/
def retrEmbedFail : MultimodalRetriever :=
  { embedder := { encode_text := fun _ => Option.some [], encode_video_frame := fun _ => Option.none },
    client := { vsearch := fun _ _ _ => Except.ok [],
                scroll := fun n => Except.ok ([hitA, hitB].take n) },
    cohere_client := Option.none,
    n_candidates := 20 }

/-- A retriever whose reranker raises on every call. -/
def retrRerankFail : MultimodalRetriever :=
  { embedder := { encode_text := fun _ => Option.some [1], encode_video_frame := fun _ => Option.none },
    client := { vsearch := fun _ _ _ => Except.ok [hitA, hitB],
                scroll := fun _ => Except.ok [] },
    cohere_client := Option.some (fun _ _ _ => Except.error ()),
    n_candidates := 20 }

/-- A retriever with no reranker configured. -/
def retrPlain : MultimodalRetriever :=
  { embedder := { encode_text := fun _ => Option.some [1], encode_video_frame := fun _ => Option.none },
    client := { vsearch := fun _ _ _ => Except.ok [hitA, hitB],
                scroll := fun _ => Except.ok [] },
    cohere_client := Option.none,
    n_candidates := 20 }

/-! ## Basic dictionary lemmas -/

theorem ctxGet_ctxSet_self (c : Ctx) (k : String) (v : CtxVal) :
    ctxGet (ctxSet c k v) k = Option.some v := by
  induction c with
  | nil => simp [ctxSet, ctxGet]
  | cons kv rest ih =>
    by_cases h : kv.1 = k
    · simp [ctxSet, ctxGet, h]
    · simpa [ctxSet, ctxGet, h] using ih

theorem ctxGet_ctxSet_ne (c : Ctx) (k k' : String) (v : CtxVal) (h : k' ≠ k) :
    ctxGet (ctxSet c k' v) k = ctxGet c k := by
  induction c with
  | nil => simp [ctxSet, ctxGet, h]
  | cons kv rest ih =>
    by_cases hk : kv.1 = k'
    · simp [ctxSet, ctxGet, hk, h]
    · by_cases hk2 : kv.1 = k
      · simp [ctxSet, ctxGet, hk, hk2, Ne.symm h]
      · simpa [ctxSet, ctxGet, hk, hk2] using ih

/-- C2: any uncaught exception during the run is converted at the orchestrator
boundary into the fixed failure shape carrying the apology, no structured
content and the caller-supplied context and content history unchanged. -/
theorem process_conversation_total_failure_roundtrip (user_input : String)
    (hist : List HistMsg) (uc : Ctx) (g1 g2 : GatewayOutcome)
    (jp : String → Option ContentData) (now e : String) :
    process_conversation user_input hist (Option.some uc) g1 g2 jp now (Option.some e) =
      { success := false,
        error := Option.some e,
        response := "I\x27m having trouble processing your request. Please try again.",
        structured_content := Option.none,
        conversation_context := uc,
        content_history := ctxGetContentHistory uc } := by
  cases uc with
  | nil => rfl
  | cons kv rest => rfl

/-- C7: when the Content Synthesizer's gateway call fails, exactly one fixed
fallback assistant message is appended while the content history and the
entire context — in particular the still-true `needs_content_generation`
flag — are left untouched. -/
theorem content_generator_gateway_failure_preserves (st : ConvState)
    (jp : String → Option ContentData) (now : String)
    (h1 : pyTruthyOpt (ctxGet st.user_context "needs_content_generation") = true)
    (h2 : ctxGetStr st.user_context "content_prompt" "" ≠ "") :
    content_generator st GatewayOutcome.raise jp now =
      { st with messages := st.messages ++
          [mkAssistant "I\x27m having trouble generating content. Please try again."] } ∧
    (content_generator st GatewayOutcome.raise jp now).content_history = st.content_history ∧
    (content_generator st GatewayOutcome.raise jp now).user_context = st.user_context ∧
    pyTruthyOpt (ctxGet (content_generator st GatewayOutcome.raise jp now).user_context
      "needs_content_generation") = true := by
  have hmain : content_generator st GatewayOutcome.raise jp now =
      { st with messages := st.messages ++
          [mkAssistant "I\x27m having trouble generating content. Please try again."] } := by
    unfold content_generator
    simp only [h1, Bool.not_true, Bool.false_eq_true, if_false, if_neg h2]
  exact ⟨hmain, by rw [hmain], by rw [hmain], by rw [hmain]; exact h1⟩

/-- C7 witness: a concrete synthesis state with the flag set and a non-empty
prompt, on which the gateway raises. -/
theorem content_generator_gateway_failure_preserves_witness :
    content_generator
        { messages := [], user_context := ctxSynthW, content_history := [],
          conversation_summary := Option.none }
        GatewayOutcome.raise (fun _ => Option.none) "2024-01-01" =
      { messages := [mkAssistant "I\x27m having trouble generating content. Please try again."],
        user_context := ctxSynthW, content_history := [],
        conversation_summary := Option.none } :=
  (content_generator_gateway_failure_preserves
    { messages := [], user_context := ctxSynthW, content_history := [],
      conversation_summary := Option.none }
    (fun _ => Option.none) "2024-01-01" (by decide) (by decide)).1

/-- Helper: a successful synthesis appends exactly one item, whose id counts
the history before the append. -/
theorem content_generator_success_append (st : ConvState) (t : Option String)
    (jp : String → Option ContentData) (now : String)
    (h1 : pyTruthyOpt (ctxGet st.user_context "needs_content_generation") = true)
    (h2 : ctxGetStr st.user_context "content_prompt" "" ≠ "") :
    ∃ item : ContentItem,
      (content_generator st (GatewayOutcome.text t) jp now).content_history =
        st.content_history ++ [item] ∧
      item.id = "content_" ++ toString (st.content_history.length + 1) := by
  unfold content_generator
  simp only [h1, Bool.not_true, Bool.false_eq_true, if_false, if_neg h2]
  exact ⟨_, rfl, rfl⟩

/-- C4: over any sequence of successful synthesis turns, the content history
grows append-only — the result is the input history plus exactly one new item
per turn, the input appears unchanged and in order as a prefix, and each new
item's id is "content_" followed by (length of the history before that
append) + 1. -/
theorem content_history_append_only (ts : List SynthTurn) (h0 : List ContentItem)
    (hall : ∀ t ∈ ts, SuccessfulSynth t) :
    ∃ newItems : List ContentItem,
      runSynthTurns ts h0 = h0 ++ newItems ∧
      (runSynthTurns ts h0).length = h0.length + ts.length ∧
      ∀ i < newItems.length,
        (newItems.getD i defaultContentItem).id =
          "content_" ++ toString (h0.length + i + 1) := by
  induction ts generalizing h0 with
  | nil =>
    refine ⟨[], by simp [runSynthTurns], by simp [runSynthTurns], ?_⟩
    intro i hi
    simp at hi
  | cons t ts ih =>
    obtain ⟨hflag, hprompt, hgo⟩ := hall t (List.mem_cons_self t ts)
    obtain ⟨o, hgoeq⟩ : ∃ o, t.go = GatewayOutcome.text o := by
      cases hg : t.go with
      | raise => exact absurd hg hgo
      | text o => exact ⟨o, rfl⟩
    obtain ⟨item, hhist, hid⟩ := content_generator_success_append
      { messages := t.msgs, user_context := t.ctx, content_history := h0,
        conversation_summary := Option.none }
      o t.parse t.now hflag hprompt
    have hrun : runSynthTurns (t :: ts) h0 = runSynthTurns ts (h0 ++ [item]) := by
      simp only [runSynthTurns]
      rw [hgoeq, hhist]
    obtain ⟨rest, hr1, hr2, hr3⟩ :=
      ih (h0 ++ [item]) (fun t' ht' => hall t' (List.mem_cons_of_mem _ ht'))
    refine ⟨item :: rest, ?_, ?_, ?_⟩
    · rw [hrun, hr1]
      simp
    · rw [hrun, hr2]
      simp only [List.length_append, List.length_cons, List.length_nil]
      omega
    · intro i hi
      cases i with
      | zero =>
        simpa using hid
      | succ j =>
        have hj : j < rest.length := by
          simpa using hi
        have hrest := hr3 j hj
        have harg : (h0 ++ [item]).length + j + 1 = h0.length + (j + 1) + 1 := by
          simp only [List.length_append, List.length_cons, List.length_nil]
          omega
        rw [harg] at hrest
        simpa using hrest

/-- C4 witness: one concrete successful synthesis turn starting from an empty
history appends a single item with id "content_1". -/
theorem content_history_append_only_witness :
    ∃ newItems : List ContentItem,
      runSynthTurns [synthTurnW] ([] : List ContentItem) = [] ++ newItems ∧
      (runSynthTurns [synthTurnW] ([] : List ContentItem)).length =
        ([] : List ContentItem).length + [synthTurnW].length ∧
      ∀ i < newItems.length,
        (newItems.getD i defaultContentItem).id =
          "content_" ++ toString (([] : List ContentItem).length + i + 1) :=
  content_history_append_only [synthTurnW] []
    (by
      intro t ht
      rw [List.mem_singleton] at ht
      subst ht
      exact ⟨by decide, by decide, by decide⟩)

/-- C3: the content-generation decision never reads the generated reply text,
and on a context carrying the extractor-written fields it equals the claimed
decision function of those fields. -/
theorem needs_content_generation_deterministic (ctx : Ctx) (r1 r2 : String)
    (intent msg topic : String) (c : Bool) (hist : List ContentItem)
    (hintent : ctxGet ctx "current_intent" = Option.some (CtxVal.str intent))
    (hmsg : ctxGet ctx "last_user_input" = Option.some (CtxVal.str msg))
    (hcont : ctxGet ctx "is_continuation" = Option.some (CtxVal.bool c))
    (htopic : ctxGet ctx "conversation_topic" = Option.some (CtxVal.str topic))
    (hhist : ctxGet ctx "content_history" = Option.some (CtxVal.contentList hist)) :
    should_generate_content_check r1 ctx = should_generate_content_check r2 ctx ∧
    should_generate_content_check r1 ctx =
      needs_generation_spec intent msg c topic (!hist.isEmpty) := by
  constructor
  · rfl
  · simp only [should_generate_content_check, needs_generation_spec, ctxGetStr,
      hintent, hmsg, hcont, htopic, hhist, pyTruthyOpt, pyTruthyVal]
    by_cases h1 : intent = "content_modification"
    · simp [h1]
    · by_cases h2 : intent = "content_generation"
      · simp [h1, h2]
      · simp [h1, h2]

/-- C3 witness: a concrete extractor-refreshed context on which two different
reply texts give the same decision, equal to the claimed function. -/
theorem needs_content_generation_deterministic_witness :
    should_generate_content_check "reply one"
        [("current_intent", CtxVal.str "general_conversation"),
         ("last_user_input", CtxVal.str "hi there"),
         ("is_continuation", CtxVal.bool false),
         ("conversation_topic", CtxVal.str "general"),
         ("content_history", CtxVal.contentList [])] =
      should_generate_content_check "reply two"
        [("current_intent", CtxVal.str "general_conversation"),
         ("last_user_input", CtxVal.str "hi there"),
         ("is_continuation", CtxVal.bool false),
         ("conversation_topic", CtxVal.str "general"),
         ("content_history", CtxVal.contentList [])] ∧
    should_generate_content_check "reply one"
        [("current_intent", CtxVal.str "general_conversation"),
         ("last_user_input", CtxVal.str "hi there"),
         ("is_continuation", CtxVal.bool false),
         ("conversation_topic", CtxVal.str "general"),
         ("content_history", CtxVal.contentList [])] =
      needs_generation_spec "general_conversation" "hi there" false "general"
        (!([] : List ContentItem).isEmpty) :=
  needs_content_generation_deterministic _ "reply one" "reply two"
    "general_conversation" "hi there" "general" false []
    (by decide) (by decide) (by decide) (by decide) (by decide)

/-- C5: intent classification follows the fixed precedence
modification → creation → question → search → general conversation, the first
matching keyword set winning; in particular a message containing both a
modification keyword and a creation keyword classifies as
content_modification. -/
theorem analyze_user_intent_precedence (s : String) :
    (hasAnyKw modification_keywords (lowerStr s) = true ∧
       hasAnyKw content_keywords (lowerStr s) = true →
       analyze_user_intent s = "content_modification") ∧
    (hasAnyKw modification_keywords (lowerStr s) = true →
       analyze_user_intent s = "content_modification") ∧
    (hasAnyKw modification_keywords (lowerStr s) = false →
       hasAnyKw content_keywords (lowerStr s) = true →
       analyze_user_intent s = "content_generation") ∧
    (hasAnyKw modification_keywords (lowerStr s) = false →
       hasAnyKw content_keywords (lowerStr s) = false →
       hasAnyKw question_keywords (lowerStr s) = true →
       analyze_user_intent s = "question") ∧
    (hasAnyKw modification_keywords (lowerStr s) = false →
       hasAnyKw content_keywords (lowerStr s) = false →
       hasAnyKw question_keywords (lowerStr s) = false →
       hasAnyKw search_keywords (lowerStr s) = true →
       analyze_user_intent s = "search") ∧
    (hasAnyKw modification_keywords (lowerStr s) = false →
       hasAnyKw content_keywords (lowerStr s) = false →
       hasAnyKw question_keywords (lowerStr s) = false →
       hasAnyKw search_keywords (lowerStr s) = false →
       analyze_user_intent s = "general_conversation") := by
  unfold analyze_user_intent
  refine ⟨?_, ?_, ?_, ?_, ?_, ?_⟩
  · rintro ⟨h1, _⟩
    simp [h1]
  · intro h1
    simp [h1]
  · intro h1 h2
    simp [h1, h2]
  · intro h1 h2 h3
    simp [h1, h2, h3]
  · intro h1 h2 h3 h4
    simp [h1, h2, h3, h4]
  · intro h1 h2 h3 h4
    simp [h1, h2, h3, h4]

/-- C5 witness: concrete messages exercising the precedence — one containing
both a modification and a creation keyword, one a pure question. -/
theorem analyze_user_intent_precedence_witness :
    analyze_user_intent "make it a video idea" = "content_modification" ∧
    analyze_user_intent "what time is it" = "question" :=
  ⟨(analyze_user_intent_precedence "make it a video idea").1 ⟨by decide, by decide⟩,
   (analyze_user_intent_precedence "what time is it").2.2.2.1
     (by decide) (by decide) (by decide)⟩

/-- C6 counterexample: with only 2 messages in play, the current message
shares the 9-letter token "elephants" with a previous message, so the claimed
rule says `is_continuation = true`, but the source returns `false` (its
token-sharing branch is gated on `len(messages) > 2`). -/
theorem is_continuation_claim_counterexample :
    analyze_conversation_continuity "elephants indeed"
        [mkAssistant "elephants are nice",
         { role := Role.user, content := "elephants indeed", structured := Option.none }]
        [] = false ∧
    is_continuation_claim "elephants indeed"
        [mkAssistant "elephants are nice",
         { role := Role.user, content := "elephants indeed", structured := Option.none }] =
      true := by
  constructor
  · decide
  · decide

/-- C6 (amended): `is_continuation` is true iff the message contains a
continuation keyword, or the conversation holds more than 2 messages and some
wholly alphabetic token of length > 4 from the last 6 messages' content (the
current message included) occurs, lowercased, as a substring of the lowercased
current message. -/
theorem analyze_conversation_continuity_characterization (u : String)
    (msgs : List Message) (ctx : Ctx) :
    analyze_conversation_continuity u msgs ctx = is_continuation_amended u msgs := by
  unfold analyze_conversation_continuity is_continuation_amended
  by_cases hk : hasAnyKw continuation_keywords (lowerStr u) = true
  · simp [hk]
  · have hk' : hasAnyKw continuation_keywords (lowerStr u) = false := by
      simpa using hk
    by_cases hl : msgs.length > 2
    · simp only [hk', Bool.false_eq_true, if_false, Bool.false_or]
      rw [if_pos hl, decide_eq_true hl, Bool.true_and]
      rw [Bool.eq_iff_iff]
      simp only [List.any_eq_true, extract_recent_topics, List.mem_dedup, List.mem_filter,
        List.mem_flatten, List.mem_map, Bool.and_eq_true, decide_eq_true_eq]
      constructor
      · rintro ⟨t, ⟨l, ⟨m, hm, hfin⟩, htl⟩, hcon⟩
        subst hfin
        rw [List.mem_filter] at htl
        obtain ⟨htmem, hpred⟩ := htl
        rw [Bool.and_eq_true, decide_eq_true_eq] at hpred
        exact ⟨m, hm, t, htmem, hpred, hcon⟩
      · rintro ⟨m, hm, w, hw, ⟨hlen, halpha⟩, hcon⟩
        refine ⟨w, ⟨_, ⟨m, hm, rfl⟩, ?_⟩, hcon⟩
        rw [List.mem_filter]
        refine ⟨hw, ?_⟩
        rw [Bool.and_eq_true, decide_eq_true_eq]
        exact ⟨hlen, halpha⟩
    · simp [hk', hl]

/-- Helper: on a gateway exception the Dialogue Agent leaves the context
exactly as received. -/
theorem conversation_agent_raise_context (st : ConvState) :
    (conversation_agent st GatewayOutcome.raise).user_context = st.user_context := by
  unfold conversation_agent
  cases h : st.messages.getLast? with
  | none => rfl
  | some m =>
    by_cases hr : m.role = Role.user
    · simp [hr]
    · simp [hr]

/-- Helper: the Context Extractor never touches the message log. -/
theorem context_analyzer_messages (st : ConvState) :
    (context_analyzer st).messages = st.messages := by
  unfold context_analyzer
  cases h : st.messages.getLast? with
  | none => rfl
  | some m =>
    by_cases hr : m.role = Role.user
    · simp [hr]
    · simp [hr]

/-- Helper: the Context Extractor does not write `needs_content_generation`. -/
theorem context_analyzer_needs_flag (st : ConvState) :
    ctxGet (context_analyzer st).user_context "needs_content_generation" =
      ctxGet st.user_context "needs_content_generation" := by
  unfold context_analyzer
  cases h : st.messages.getLast? with
  | none => rfl
  | some m =>
    by_cases hr : m.role = Role.user
    · simp only [hr, if_true]
      rw [ctxGet_ctxSet_ne _ _ _ _ (by decide), ctxGet_ctxSet_ne _ _ _ _ (by decide),
        ctxGet_ctxSet_ne _ _ _ _ (by decide), ctxGet_ctxSet_ne _ _ _ _ (by decide),
        ctxGet_ctxSet_ne _ _ _ _ (by decide), ctxGet_ctxSet_ne _ _ _ _ (by decide)]
    · simp [hr]

/-- Helper: the Content Synthesizer is a no-op when the flag is not set. -/
theorem content_generator_skip (st : ConvState) (go : GatewayOutcome)
    (jp : String → Option ContentData) (now : String)
    (h : pyTruthyOpt (ctxGet st.user_context "needs_content_generation") = false) :
    content_generator st go jp now = st := by
  unfold content_generator
  simp [h]

/-- C1 counterexample: with empty input context and a raising gateway, the
context the turn returns is not the input context — the Context Extractor has
already merged its analysis keys before the Dialogue Agent fails. -/
theorem conversation_context_not_input_counterexample :
    (process_conversation "hello" [] (Option.some []) GatewayOutcome.raise GatewayOutcome.raise
        (fun _ => Option.none) "t" Option.none).conversation_context ≠ ([] : Ctx) := by
  decide

/-- C1 (amended): when the Dialogue Agent's gateway call raises, the agent
returns its received context unchanged, and — provided the input context does
not already carry a truthy `needs_content_generation` left over from an
earlier turn — the context returned by the whole turn is exactly the Context
Extractor's refreshed input context. -/
theorem conversation_context_on_agent_gateway_raise :
    (∀ st : ConvState,
       (conversation_agent st GatewayOutcome.raise).user_context = st.user_context) ∧
    (∀ (u : String) (hist : List HistMsg) (ctx : Ctx) (sg : GatewayOutcome)
       (jp : String → Option ContentData) (now : String),
       pyTruthyOpt (ctxGet ctx "needs_content_generation") = false →
       (process_conversation u hist (Option.some ctx) GatewayOutcome.raise sg jp now
           Option.none).conversation_context =
         (context_analyzer (initial_turn_state u hist (Option.some ctx))).user_context) := by
  constructor
  · exact conversation_agent_raise_context
  · intro u hist ctx sg jp now hflag
    show (content_generator
        (conversation_agent (context_analyzer (initial_turn_state u hist (Option.some ctx)))
          GatewayOutcome.raise) sg jp now).user_context =
      (context_analyzer (initial_turn_state u hist (Option.some ctx))).user_context
    rw [content_generator_skip]
    · exact conversation_agent_raise_context _
    · rw [conversation_agent_raise_context, context_analyzer_needs_flag]
      exact hflag

/-- C1 witness: a concrete raising turn starting from the empty context. -/
theorem conversation_context_on_agent_gateway_raise_witness :
    (conversation_agent
        { messages := [], user_context := [], content_history := [],
          conversation_summary := Option.none }
        GatewayOutcome.raise).user_context = ([] : Ctx) ∧
    (process_conversation "hi" [] (Option.some []) GatewayOutcome.raise GatewayOutcome.raise
        (fun _ => Option.none) "t" Option.none).conversation_context =
      (context_analyzer (initial_turn_state "hi" [] (Option.some []))).user_context :=
  ⟨conversation_context_on_agent_gateway_raise.1 _,
   conversation_context_on_agent_gateway_raise.2 "hi" [] [] GatewayOutcome.raise
     (fun _ => Option.none) "t" rfl⟩

/-- Helper: a duplicate-free list of indices below `L` has at most `L`
elements. -/
theorem nodup_bounded_length_le (l : List Nat) (L : Nat) (hnd : l.Nodup)
    (hb : ∀ i ∈ l, i < L) : l.length ≤ L := by
  have hsub : l.toFinset ⊆ Finset.range L := by
    intro x hx
    rw [List.mem_toFinset] at hx
    exact Finset.mem_range.mpr (hb x hx)
  have hcard := Finset.card_le_card hsub
  rwa [List.toFinset_card_of_nodup hnd, Finset.card_range] at hcard

/-- C8: when the embedding stage yields no usable vector (`None` or empty),
search degrades to the scroll fallback: with a scroll serving the first
`top_k` items of the collection it returns exactly their payloads in stored
order — and it never raises on this path no matter what the scroll does. -/
theorem search_embedding_failure_scroll_fallback (m : MultimodalRetriever)
    (qt : String) (top_k : Nat) (collection : List Hit)
    (hqt : qt ≠ "")
    (hembed : m.embedder.encode_text qt = Option.none ∨
              m.embedder.encode_text qt = Option.some ([] : Vec))
    (hscroll : m.client.scroll top_k = Except.ok (collection.take top_k)) :
    MultimodalRetriever.search m (Option.some qt) Option.none top_k =
      Except.ok ((collection.take top_k).map Hit.payload) ∧
    ∀ m2 : MultimodalRetriever, m2.embedder = m.embedder →
      ∃ out, MultimodalRetriever.search m2 (Option.some qt) Option.none top_k =
        Except.ok out := by
  have key : ∀ m2 : MultimodalRetriever, m2.embedder = m.embedder →
      MultimodalRetriever.search m2 (Option.some qt) Option.none top_k = scrollFb m2 top_k := by
    intro m2 hm2
    unfold MultimodalRetriever.search buildQueryVector
    rcases hembed with he | he <;> simp [pyTruthyOptStr, hqt, hm2, he]
  constructor
  · rw [key m rfl]
    unfold scrollFb
    rw [hscroll]
  · intro m2 hm2
    rw [key m2 hm2]
    unfold scrollFb
    cases hs : m2.client.scroll top_k with
    | ok hits => exact ⟨hits.map Hit.payload, rfl⟩
    | error e => exact ⟨[], rfl⟩

/-- C8 witness: a concrete retriever whose embedder returns the empty vector
and whose scroll serves a two-item collection. -/
theorem search_embedding_failure_scroll_fallback_witness :
    MultimodalRetriever.search retrEmbedFail (Option.some "x") Option.none 1 =
      Except.ok (([hitA, hitB].take 1).map Hit.payload) ∧
    ∀ m2 : MultimodalRetriever, m2.embedder = retrEmbedFail.embedder →
      ∃ out, MultimodalRetriever.search m2 (Option.some "x") Option.none 1 =
        Except.ok out :=
  search_embedding_failure_scroll_fallback retrEmbedFail "x" 1 [hitA, hitB]
    (by decide) (Or.inr rfl) rfl

/-- C9: for a textual query with a configured reranker, a reranker that
raises on every call degrades search to the first `top_k` raw similarity hits
unchanged in (score-descending) order, and a successful rerank makes the
result follow the reranker's returned index order truncated to `top_k`. -/
theorem search_rerank_degradation_and_order (m : MultimodalRetriever)
    (qt : String) (top_k : Nat) (v : Vec) (results : List Hit)
    (rr : String → List String → Nat → Except Unit (List Nat))
    (hqt : qt ≠ "") (hv : v ≠ [])
    (hvec : m.embedder.encode_text qt = Option.some v)
    (hres : m.client.vsearch "text" v m.n_candidates = Except.ok results)
    (hcc : m.cohere_client = Option.some rr) :
    ((∀ q docs n, rr q docs n = Except.error ()) →
       MultimodalRetriever.search m (Option.some qt) Option.none top_k =
         Except.ok ((results.take top_k).map Hit.payload) ∧
       (List.Sorted (fun a b : Hit => b.score ≤ a.score) results →
        List.Sorted (fun a b : Hit => b.score ≤ a.score) (results.take top_k))) ∧
    (∀ idxs : List Nat,
       rr qt (results.map (fun res => payloadGet res.payload "text" "")) top_k =
         Except.ok idxs →
       (∀ i ∈ idxs, i < results.length) →
       idxs.length ≤ top_k →
       MultimodalRetriever.search m (Option.some qt) Option.none top_k =
         Except.ok (((idxs.take top_k).map (fun i => results.getD i defaultHit)).map
           Hit.payload)) := by
  have hv2 : v.isEmpty = false := by
    cases v with
    | nil => exact absurd rfl hv
    | cons a l => rfl
  have hmain : ∀ z, rr qt (results.map (fun res => payloadGet res.payload "text" "")) top_k = z →
      results.isEmpty = false →
      MultimodalRetriever.search m (Option.some qt) Option.none top_k =
        (match z with
         | Except.ok idxs =>
           if idxs.all (fun i => decide (i < results.length)) then
             Except.ok ((idxs.map (fun i => results.getD i defaultHit)).map Hit.payload)
           else Except.ok ((results.take top_k).map Hit.payload)
         | Except.error _ => Except.ok ((results.take top_k).map Hit.payload)) := by
    intro z hz hre
    unfold MultimodalRetriever.search buildQueryVector
    simp [pyTruthyOptStr, hqt, hvec, hv2, hres, hcc, hre, hz]
  constructor
  · intro hfail
    constructor
    · by_cases hre : results.isEmpty = true
      · have hnil : results = [] := List.isEmpty_iff.mp hre
        subst hnil
        unfold MultimodalRetriever.search buildQueryVector
        simp [pyTruthyOptStr, hqt, hvec, hv2, hres]
      · have hre2 : results.isEmpty = false := by
          revert hre
          cases results.isEmpty <;> simp
        rw [hmain _ (hfail qt _ top_k) hre2]
    · intro hsorted
      exact List.Pairwise.sublist (List.take_sublist top_k results) hsorted
  · intro idxs hz hbound hlen
    by_cases hre : results.isEmpty = true
    · have hnil : results = [] := List.isEmpty_iff.mp hre
      subst hnil
      have hidxnil : idxs = [] := by
        cases idxs with
        | nil => rfl
        | cons i is => exact absurd (hbound i (List.mem_cons_self i is)) (by simp)
      subst hidxnil
      unfold MultimodalRetriever.search buildQueryVector
      simp [pyTruthyOptStr, hqt, hvec, hv2, hres]
    · have hre2 : results.isEmpty = false := by
        revert hre
        cases results.isEmpty <;> simp
      rw [hmain _ hz hre2]
      have hall : idxs.all (fun i => decide (i < results.length)) = true := by
        rw [List.all_eq_true]
        intro i hi
        exact decide_eq_true (hbound i hi)
      rw [List.take_of_length_le hlen]
      simp [hall]

/-- C9 witness: a concrete two-candidate search whose reranker raises on every
call returns the single top raw hit. -/
theorem search_rerank_degradation_and_order_witness :
    MultimodalRetriever.search retrRerankFail (Option.some "x") Option.none 1 =
      Except.ok (([hitA, hitB].take 1).map Hit.payload) :=
  ((search_rerank_degradation_and_order retrRerankFail "x" 1 [1] [hitA, hitB]
      (fun _ _ _ => Except.error ())
      (by decide) (by decide) rfl rfl rfl).1
    (fun q docs n => rfl)).1

/-- C10: a search that reaches the vector-similarity stage returns at most
min(top_k, n_candidates) payloads, the candidates being fetched with limit
n_candidates and truncated to top_k (the collaborators honouring their
contracts: the index returns at most `limit` hits, the reranker at most
`top_n` distinct in-range indices). -/
theorem search_result_length_bound (m : MultimodalRetriever)
    (query_text query_video : Option String) (top_k : Nat)
    (v : Vec) (nm : String) (results : List Hit)
    (hguard : (!(pyTruthyOptStr query_text) && !(pyTruthyOptStr query_video)) = false)
    (hvec : buildQueryVector m query_text query_video = (Option.some v, nm))
    (hv : v ≠ [])
    (hres : m.client.vsearch nm v m.n_candidates = Except.ok results)
    (hlen : results.length ≤ m.n_candidates)
    (hrerank : ∀ rr, m.cohere_client = Option.some rr →
       ∀ q docs n idxs, rr q docs n = Except.ok idxs →
         idxs.Nodup ∧ (∀ i ∈ idxs, i < docs.length) ∧ idxs.length ≤ n) :
    ∃ out, MultimodalRetriever.search m query_text query_video top_k = Except.ok out ∧
      out.length ≤ min top_k m.n_candidates := by
  have hv2 : v.isEmpty = false := by
    cases v with
    | nil => exact absurd rfl hv
    | cons a l => rfl
  have htakebound : ((results.take top_k).map Hit.payload).length ≤ min top_k m.n_candidates := by
    rw [List.length_map, List.length_take]
    exact min_le_min (le_refl top_k) hlen
  by_cases hre : results.isEmpty = true
  · have hnil : results = [] := List.isEmpty_iff.mp hre
    subst hnil
    refine ⟨[], ?_, by simp⟩
    unfold MultimodalRetriever.search
    rw [hguard]
    simp [hvec, hv2, hres]
  · have hre2 : results.isEmpty = false := by
      revert hre
      cases results.isEmpty <;> simp
    have hopen : MultimodalRetriever.search m query_text query_video top_k =
        (match m.cohere_client with
         | Option.some rerank =>
           if pyTruthyOptStr query_text then
             (match rerank (query_text.getD "")
                 (results.map (fun res => payloadGet res.payload "text" "")) top_k with
             | Except.ok idxs =>
               if idxs.all (fun i => decide (i < results.length)) then
                 Except.ok ((idxs.map (fun i => results.getD i defaultHit)).map Hit.payload)
               else Except.ok ((results.take top_k).map Hit.payload)
             | Except.error _ => Except.ok ((results.take top_k).map Hit.payload))
           else Except.ok ((results.take top_k).map Hit.payload)
         | Option.none => Except.ok ((results.take top_k).map Hit.payload)) := by
      unfold MultimodalRetriever.search
      rw [hguard]
      simp [hvec, hv2, hres, hre2]
    rw [hopen]
    cases hcc : m.cohere_client with
    | none => exact ⟨(results.take top_k).map Hit.payload, rfl, htakebound⟩
    | some rr =>
      by_cases hqt : pyTruthyOptStr query_text = true
      · cases hz : rr (query_text.getD "")
            (results.map (fun res => payloadGet res.payload "text" "")) top_k with
        | error e =>
          refine ⟨(results.take top_k).map Hit.payload, ?_, htakebound⟩
          simp [hqt, hz]
        | ok idxs =>
          obtain ⟨hnd, hbound, hlenidx⟩ := hrerank rr hcc _ _ _ _ hz
          rw [List.length_map] at hbound
          have hall : idxs.all (fun i => decide (i < results.length)) = true := by
            rw [List.all_eq_true]
            intro i hi
            exact decide_eq_true (hbound i hi)
          refine ⟨(idxs.map (fun i => results.getD i defaultHit)).map Hit.payload, ?_, ?_⟩
          · simp [hqt, hz, hall]
          · rw [List.length_map, List.length_map]
            refine le_min hlenidx (le_trans ?_ hlen)
            exact nodup_bounded_length_le idxs results.length hnd hbound
      · have hqt2 : pyTruthyOptStr query_text = false := by
          revert hqt
          cases pyTruthyOptStr query_text <;> simp
        refine ⟨(results.take top_k).map Hit.payload, ?_, htakebound⟩
        simp [hqt2]

/-- C10 witness: a concrete retriever with 20 configured candidates and a
two-item index result answering a top-1 query. -/
theorem search_result_length_bound_witness :
    ∃ out, MultimodalRetriever.search retrPlain (Option.some "x") Option.none 1 =
        Except.ok out ∧
      out.length ≤ min 1 retrPlain.n_candidates :=
  search_result_length_bound retrPlain (Option.some "x") Option.none 1
    [1] "text" [hitA, hitB]
    (by decide) rfl (by decide) rfl (by decide)
    (fun rr h => nomatch h)
